import Mathlib

/-!
Verification development for `ccloud-scrape-generator.py`.

The script discovers Confluent Cloud resources over HTTP, normalizes them,
and writes Prometheus file-based service-discovery files. We shallowly embed
the script in Lean:

* Python/JSON values are modelled by the inductive `JVal`; Python dicts by
  insertion-ordered association lists (`alistGet` / `alistSet` / `alistPush`
  mirror subscript read, assignment and `defaultdict(list)` append).
* HTTP is an oracle `Http : String → HttpResp` mapping a URL to the response
  the server would give for it; `resp.body` is the parsed JSON document.
* Fallible code returns `Option`: `none` models an uncaught Python exception
  (which aborts the process); `Except.error ()` models an explicit `exit(1)`.
* Python `str.lower` / `str.upper` are modelled per character via Leans
  ASCII `Char.toLower` / `Char.toUpper`; `in` on strings is substring test.
* Console output has no semantic effect and is not modelled; the data of the
  summary line `print(f"...: {len(resources)} resources")` is exposed as
  `summaryCounts`.
-/

/-- Python `str.lower`, applied characterwise (ASCII case mapping). -/
def pyLower (s : String) : String :=
  String.mk (s.data.map Char.toLower)

/-- Python `str.upper`, applied characterwise (ASCII case mapping). -/
def pyUpper (s : String) : String :=
  String.mk (s.data.map Char.toUpper)

/-- Python `needle in haystack` on strings: substring containment. -/
def pyContains (haystack needle : String) : Bool :=
  haystack.data.tails.any fun t => needle.data.isPrefixOf t

/-- Python `str.endswith`. -/
def pyEndsWith (s suf : String) : Bool :=
  suf.data.isSuffixOf s.data

theorem charToNat_ofNat {n : Nat} (h : n.isValidChar) : (Char.ofNat n).toNat = n := by
  simp [Char.ofNat, dif_pos h, Char.ofNatAux, Char.toNat, UInt32.toNat]

theorem char_toLower_toUpper (c : Char) : c.toUpper.toLower = c.toLower := by
  unfold Char.toUpper Char.toLower
  by_cases h : c.toNat ≥ 97 ∧ c.toNat ≤ 122
  · rw [if_pos h]
    have hv : (c.toNat - 32).isValidChar := by
      left; omega
    have ht : (Char.ofNat (c.toNat - 32)).toNat = c.toNat - 32 := charToNat_ofNat hv
    rw [ht]
    have h2 : (c.toNat - 32 ≥ 65 ∧ c.toNat - 32 ≤ 90) := by omega
    rw [if_pos h2, if_neg (by omega)]
    have h3 : c.toNat - 32 + 32 = c.toNat := by omega
    rw [h3, Char.ofNat_toNat]
  · rw [if_neg h]

/-- Pythons `s.upper().lower()` agrees with `s.lower()` (ASCII model). -/
theorem pyLower_pyUpper (s : String) : pyLower (pyUpper s) = pyLower s := by
  have hf : Char.toLower ∘ Char.toUpper = Char.toLower := funext char_toLower_toUpper
  simp [pyLower, pyUpper, hf]

/-- JSON / Python values as the script manipulates them. -/
inductive JVal where
  | jstr (s : String)
  | jnum (n : Int)
  | jbool (b : Bool)
  | jnull
  | jarr (xs : List JVal)
  | jobj (fields : List (String × JVal))

mutual

def jdecEq : (a b : JVal) → Decidable (a = b)
  | .jstr a, .jstr b =>
    if h : a = b then isTrue (by rw [h]) else isFalse fun hh => h (by injection hh)
  | .jnum a, .jnum b =>
    if h : a = b then isTrue (by rw [h]) else isFalse fun hh => h (by injection hh)
  | .jbool a, .jbool b =>
    if h : a = b then isTrue (by rw [h]) else isFalse fun hh => h (by injection hh)
  | .jnull, .jnull => isTrue rfl
  | .jarr xs, .jarr ys =>
    match jdecEqL xs ys with
    | isTrue h => isTrue (by rw [h])
    | isFalse h => isFalse fun hh => h (by injection hh)
  | .jobj fs, .jobj gs =>
    match jdecEqF fs gs with
    | isTrue h => isTrue (by rw [h])
    | isFalse h => isFalse fun hh => h (by injection hh)
  | .jstr _, .jnum _ => isFalse nofun
  | .jstr _, .jbool _ => isFalse nofun
  | .jstr _, .jnull => isFalse nofun
  | .jstr _, .jarr _ => isFalse nofun
  | .jstr _, .jobj _ => isFalse nofun
  | .jnum _, .jstr _ => isFalse nofun
  | .jnum _, .jbool _ => isFalse nofun
  | .jnum _, .jnull => isFalse nofun
  | .jnum _, .jarr _ => isFalse nofun
  | .jnum _, .jobj _ => isFalse nofun
  | .jbool _, .jstr _ => isFalse nofun
  | .jbool _, .jnum _ => isFalse nofun
  | .jbool _, .jnull => isFalse nofun
  | .jbool _, .jarr _ => isFalse nofun
  | .jbool _, .jobj _ => isFalse nofun
  | .jnull, .jstr _ => isFalse nofun
  | .jnull, .jnum _ => isFalse nofun
  | .jnull, .jbool _ => isFalse nofun
  | .jnull, .jarr _ => isFalse nofun
  | .jnull, .jobj _ => isFalse nofun
  | .jarr _, .jstr _ => isFalse nofun
  | .jarr _, .jnum _ => isFalse nofun
  | .jarr _, .jbool _ => isFalse nofun
  | .jarr _, .jnull => isFalse nofun
  | .jarr _, .jobj _ => isFalse nofun
  | .jobj _, .jstr _ => isFalse nofun
  | .jobj _, .jnum _ => isFalse nofun
  | .jobj _, .jbool _ => isFalse nofun
  | .jobj _, .jnull => isFalse nofun
  | .jobj _, .jarr _ => isFalse nofun

def jdecEqL : (a b : List JVal) → Decidable (a = b)
  | [], [] => isTrue rfl
  | [], _ :: _ => isFalse nofun
  | _ :: _, [] => isFalse nofun
  | x :: xs, y :: ys =>
    match jdecEq x y with
    | isTrue h1 =>
      match jdecEqL xs ys with
      | isTrue h2 => isTrue (by rw [h1, h2])
      | isFalse h2 => isFalse fun hh => h2 (by injection hh)
    | isFalse h1 => isFalse fun hh => h1 (by injection hh)

def jdecEqF : (a b : List (String × JVal)) → Decidable (a = b)
  | [], [] => isTrue rfl
  | [], _ :: _ => isFalse nofun
  | _ :: _, [] => isFalse nofun
  | (k, v) :: xs, (k2, v2) :: ys =>
    if hk : k = k2 then
      match jdecEq v v2 with
      | isTrue h1 =>
        match jdecEqF xs ys with
        | isTrue h2 => isTrue (by rw [hk, h1, h2])
        | isFalse h2 => isFalse fun hh => h2 (by injection hh)
      | isFalse h1 => isFalse fun hh => by
          injection hh with hp ht
          exact h1 (congrArg Prod.snd hp)
    else isFalse fun hh => by
      injection hh with hp ht
      exact hk (congrArg Prod.fst hp)

end

instance : DecidableEq JVal := jdecEq

/-- A Python dict with string keys (insertion-ordered association list). -/
abbrev PyDict := List (String × JVal)

/-- Python truthiness of a value. -/
def pyTruthy : JVal → Bool
  | .jstr s => s != ""
  | .jnum n => n != 0
  | .jbool b => b
  | .jnull => false
  | .jarr xs => !xs.isEmpty
  | .jobj fs => !fs.isEmpty

/-- Whether a value may be used as a Python dict key (hashable). -/
def jHashable : JVal → Bool
  | .jarr _ => false
  | .jobj _ => false
  | _ => true

/-- Python iteration `for x in v`: lists yield elements, strings yield
characters, dicts yield their keys; other values raise `TypeError`. -/
def pyIterate : JVal → Option (List JVal)
  | .jarr xs => some xs
  | .jstr s => some (s.data.map fun c => JVal.jstr (String.singleton c))
  | .jobj fs => some (fs.map fun p => JVal.jstr p.1)
  | _ => none

/-- Lookup in an association list (first matching key). -/
def alistGet {κ β : Type} [DecidableEq κ] : List (κ × β) → κ → Option β
  | [], _ => none
  | p :: ps, k => if p.1 = k then some p.2 else alistGet ps k

/-- Python `d.get(k, default)`. -/
def alistGetD {κ β : Type} [DecidableEq κ] (l : List (κ × β)) (k : κ) (d : β) : β :=
  (alistGet l k).getD d

/-- Python `k in d`. -/
def alistHas {κ β : Type} [DecidableEq κ] (l : List (κ × β)) (k : κ) : Bool :=
  (alistGet l k).isSome

/-- Python `d[k] = v`: replace in place if the key exists, else append. -/
def alistSet {κ β : Type} [DecidableEq κ] : List (κ × β) → κ → β → List (κ × β)
  | [], k, v => [(k, v)]
  | p :: ps, k, v => if p.1 = k then (k, v) :: ps else p :: alistSet ps k v

/-- Python `defaultdict(list): d[k].append(x)`. -/
def alistPush {κ β : Type} [DecidableEq κ] : List (κ × List β) → κ → β → List (κ × List β)
  | [], k, x => [(k, [x])]
  | p :: ps, k, x => if p.1 = k then (p.1, p.2 ++ [x]) :: ps else p :: alistPush ps k x

/-- Grouping a list with a `defaultdict(list)` loop: keys in first-occurrence
order, each group in encounter order. -/
def groupByKey {κ β : Type} [DecidableEq κ] (f : β → κ) (xs : List β) : List (κ × List β) :=
  xs.foldl (fun acc x => alistPush acc (f x) x) []

/-- Python subscript `v[k]` for a string key: `KeyError`/`TypeError` is `none`. -/
def pySub : JVal → String → Option JVal
  | .jobj fs, k => alistGet fs k
  | _, _ => none

/-- A Python `for` loop that appends `f x` and aborts on an exception. -/
def foldOpt {σ α : Type} (f : σ → α → Option σ) : σ → List α → Option σ
  | s, [] => some s
  | s, x :: xs =>
    match f s x with
    | none => none
    | some s2 => foldOpt f s2 xs

/-- A Python loop building a list, aborting (`none`) on an exception. -/
def mapOpt {α β : Type} (f : α → Option β) : List α → Option (List β)
  | [] => some []
  | x :: xs =>
    match f x with
    | none => none
    | some y =>
      match mapOpt f xs with
      | none => none
      | some ys => some (y :: ys)

/-- A Python loop building a list inside `try/except`: on the first exception
the items appended so far are kept and the loop stops. -/
def takeWhileSome {α β : Type} (f : α → Option β) : List α → List β
  | [] => []
  | x :: xs =>
    match f x with
    | none => []
    | some y => y :: takeWhileSome f xs

mutual

/-- Python `repr` of a JSON value (as used by `str` on containers). -/
def pyRepr : JVal → String
  | .jstr s => String.mk (Char.ofNat 39 :: s.data ++ [Char.ofNat 39])
  | .jnum n => toString n
  | .jbool true => "True"
  | .jbool false => "False"
  | .jnull => "None"
  | .jarr xs => "[" ++ String.intercalate ", " (pyReprL xs) ++ "]"
  | .jobj fs =>
    String.singleton (Char.ofNat 123) ++ String.intercalate ", " (pyReprF fs) ++
      String.singleton (Char.ofNat 125)

def pyReprL : List JVal → List String
  | [] => []
  | x :: xs => pyRepr x :: pyReprL xs

def pyReprF : List (String × JVal) → List String
  | [] => []
  | (k, v) :: fs =>
    (String.mk (Char.ofNat 39 :: k.data ++ [Char.ofNat 39]) ++ ": " ++ pyRepr v) :: pyReprF fs

end

/-- Python `str(v)` as interpolated by an f-string. -/
def pyStr : JVal → String
  | .jstr s => s
  | v => pyRepr v

/-! ## Embedding of `ccloud-scrape-generator.py` -/

/-- An HTTP response: status code and parsed JSON body (`response.json()`). -/
structure HttpResp where
  status : Nat
  body : JVal

/-- The HTTP oracle: the response `session.get(url)` would produce. -/
abbrev Http := String → HttpResp

/-- `BASE_URL` (line 18). -/
def BASE_URL : String := "https://api.confluent.cloud"

/-- `TELEMETRY_URL` (line 19). -/
def TELEMETRY_URL : String := "https://api.telemetry.confluent.cloud"

/-- `SD_DIR` (line 29). -/
def SD_DIR : String := "target_configs"

/-- The pagination loop of `fetch_environments` (lines 36-55): follow
`metadata.next` while present and truthy, concatenating the `data` arrays.
`fuel` bounds the number of requests (`none` on exhaustion models the
unbounded `while True`); a non-200 page is `exit(1)` (`Except.error`);
`none` otherwise models an uncaught exception (non-dict body or metadata,
non-iterable `data`, non-string next URL). -/
def fetchEnvPages (http : Http) : Nat → String → Option (Except Unit (List JVal))
  | 0, _ => none
  | fuel + 1, url =>
    let resp := http url
    if resp.status ≠ 200 then some (Except.error ())
    else
      match resp.body with
      | .jobj fs =>
        match pyIterate (alistGetD fs "data" (.jarr [])) with
        | none => none
        | some chunk =>
          match alistGetD fs "metadata" (.jobj []) with
          | .jobj ms =>
            let nextUrl := alistGetD ms "next" .jnull
            if pyTruthy nextUrl then
              match nextUrl with
              | .jstr u =>
                match fetchEnvPages http fuel u with
                | none => none
                | some (Except.error e) => some (Except.error e)
                | some (Except.ok rest) => some (Except.ok (chunk ++ rest))
              | _ => none
            else some (Except.ok chunk)
          | _ => none
      | _ => none

/-- One step of the dict comprehension on line 57: `env["id"]`,
`env["display_name"]`; a missing key or non-dict entry raises, a
non-hashable id raises `TypeError`. -/
def envPair (env : JVal) : Option (JVal × JVal) :=
  match pySub env "id", pySub env "display_name" with
  | some i, some d => if jHashable i then some (i, d) else none
  | _, _ => none

/-- `fetch_environments` (lines 33-57): aggregate the pages, then build the
id-keyed dict `{env["id"]: env["display_name"]}` (later duplicates replace
earlier values, keeping first position, as Python dicts do). -/
def fetch_environments (http : Http) (fuel : Nat) :
    Option (Except Unit (List (JVal × JVal))) :=
  match fetchEnvPages http fuel (BASE_URL ++ "/org/v2/environments") with
  | none => none
  | some (Except.error e) => some (Except.error e)
  | some (Except.ok envs) =>
    match mapOpt envPair envs with
    | none => none
    | some pairs => some (Except.ok (pairs.foldl (fun acc p => alistSet acc p.1 p.2) []))

/-- URL of line 63. -/
def cmkUrl (envId : JVal) : String :=
  BASE_URL ++ "/cmk/v2/clusters?environment=" ++ pyStr envId

/-- `fetch_kafka_clusters` (lines 60-76): non-200 yields `[]`; a falsy
`data` field yields `[]`; otherwise the raw `data` value is returned (the
caller iterates it). A non-dict body raises on `.get` (`none`). -/
def fetch_kafka_clusters (http : Http) (envId : JVal) : Option JVal :=
  let resp := http (cmkUrl envId)
  if resp.status ≠ 200 then some (.jarr [])
  else
    match resp.body with
    | .jobj fs =>
      if pyTruthy (alistGetD fs "data" .jnull) then some (alistGetD fs "data" (.jarr []))
      else some (.jarr [])
    | _ => none

/-- The id-label search loop of `get_resource_types` (lines 102-106): the
first label whose key contains "id" case-insensitively and whose
`exportable` value is truthy wins (`break`); `some none` when no label
matches; `none` when a label is not a dict or its key is not a string
(uncaught exception). -/
def findIdLabelLoop : List JVal → Option (Option JVal)
  | [] => some none
  | l :: ls =>
    match l with
    | .jobj lfs =>
      match alistGetD lfs "key" (.jstr "") with
      | .jstr k =>
        if pyContains (pyLower k) "id" && pyTruthy (alistGetD lfs "exportable" (.jbool false)) then
          some (some (alistGetD lfs "key" .jnull))
        else findIdLabelLoop ls
      | _ => none
    | _ => none

/-- One iteration of the resource-type loop (lines 94-106). Non-dict items
and items without a `type` key are skipped; a non-hashable `type` raises. -/
def rtypesOne (acc : List (JVal × PyDict)) (item : JVal) : Option (List (JVal × PyDict)) :=
  match item with
  | .jobj rfs =>
    if alistHas rfs "type" then
      let rt := alistGetD rfs "type" .jnull
      if jHashable rt then
        let labelsV := alistGetD rfs "labels" (.jarr [])
        let meta0 : PyDict := [("description", alistGetD rfs "description" (.jstr "")),
          ("labels", labelsV)]
        match pyIterate labelsV with
        | none => none
        | some litems =>
          match findIdLabelLoop litems with
          | none => none
          | some idl =>
            let meta :=
              match idl with
              | some v => alistSet meta0 "id_label" v
              | none => meta0
            some (alistSet acc rt meta)
      else none
    else some acc
  | _ => some acc

/-- `get_resource_types` (lines 79-108): non-200 is `exit(1)`; the result is
the dict `resource_type -> {description, labels[, id_label]}` in response
order. -/
def get_resource_types (http : Http) : Option (Except Unit (List (JVal × PyDict))) :=
  let resp := http (TELEMETRY_URL ++ "/v2/metrics/cloud/descriptors/resources")
  if resp.status ≠ 200 then some (Except.error ())
  else
    match resp.body with
    | .jobj fs =>
      match pyIterate (alistGetD fs "data" (.jarr [])) with
      | none => none
      | some items =>
        match foldOpt rtypesOne [] items with
        | none => none
        | some rts => some (Except.ok rts)
    | _ => none

/-- One Kafka cluster record (lines 121-129); all subscripts are mandatory
and an unexpected shape raises (this branch has no try/except). -/
def kafkaCluster (envId envName : JVal) (cl : JVal) : Option PyDict :=
  match pySub cl "id", pySub cl "spec" with
  | some idv, some spec =>
    match pySub spec "display_name", pySub spec "config", pySub spec "cloud",
        pySub spec "region" with
    | some dn, some cfg, some cloudv, some regionv =>
      match pySub cfg "kind" with
      | some kindv =>
        some [("id", idv), ("name", dn), ("kind", kindv), ("cloud", cloudv),
          ("region", regionv), ("environment", envId), ("environment_name", envName)]
      | none => none
    | _, _, _, _ => none
  | _, _ => none

/-- The kafka branch, one environment (lines 118-129). -/
def kafkaEnv (http : Http) (acc : List PyDict) (env : JVal × JVal) : Option (List PyDict) :=
  match fetch_kafka_clusters http env.1 with
  | none => none
  | some clusters =>
    match pyIterate clusters with
    | none => none
    | some items =>
      match mapOpt (kafkaCluster env.1 env.2) items with
      | none => none
      | some rs => some (acc ++ rs)

/-- The kafka branch of `fetch_resource_ids` (lines 116-129). -/
def kafkaBranch (http : Http) (envs : List (JVal × JVal)) : Option (List PyDict) :=
  foldOpt (kafkaEnv http) [] envs

/-- One Schema Registry record (lines 144-152); `none` is an exception,
caught by the enclosing `except`. -/
def srOne (envId envName : JVal) (sr : JVal) : Option PyDict :=
  match sr with
  | .jobj sfs =>
    match alistGet sfs "id" with
    | some idv =>
      match alistGetD sfs "spec" (.jobj []) with
      | .jobj spfs =>
        some [("id", idv), ("name", alistGetD sfs "display_name" idv),
          ("environment", envId), ("environment_name", envName),
          ("cloud", alistGetD spfs "cloud" .jnull),
          ("region", alistGetD spfs "region" .jnull)]
      | _ => none
    | none => none
  | _ => none

/-- The `try` body of the schema_registry branch for one environment
(lines 142-154): records appended before an exception are kept. -/
def srEnvParse (envId envName : JVal) (body : JVal) : List PyDict :=
  match body with
  | .jobj fs =>
    match pyIterate (alistGetD fs "data" (.jarr [])) with
    | none => []
    | some items => takeWhileSome (srOne envId envName) items
  | _ => []

/-- URL of line 135. -/
def srUrl (envId : JVal) : String :=
  BASE_URL ++ "/srcm/v3/clusters?environment=" ++ pyStr envId

/-- The schema_registry branch (lines 131-154): non-200 environments are
skipped; parse errors are caught per environment. -/
def srBranch (http : Http) (envs : List (JVal × JVal)) : List PyDict :=
  envs.foldl
    (fun acc env =>
      let resp := http (srUrl env.1)
      if resp.status ≠ 200 then acc
      else acc ++ srEnvParse env.1 env.2 resp.body)
    []

/-- One KSQL record (lines 179-203); `curLen` is `len(resources)` at the
moment the default id is synthesized; `none` means the item is skipped
(non-dict check on line 180). This body raises no exceptions. -/
def ksqlOne (envId envName : JVal) (curLen : Nat) (k : JVal) : Option PyDict :=
  match k with
  | .jobj kfs =>
    let r0 : PyDict := [("id", alistGetD kfs "id" (.jstr ("unknown-" ++ toString curLen))),
      ("name", .jstr "Unknown KSQL Cluster"),
      ("environment", envId), ("environment_name", envName)]
    let r4 :=
      match alistGet kfs "spec" with
      | some (.jobj spfs) =>
        let r1 := if alistHas spfs "display_name" then
            alistSet r0 "name" (alistGetD spfs "display_name" .jnull) else r0
        let r2 := if alistHas spfs "cloud" then
            alistSet r1 "cloud" (alistGetD spfs "cloud" .jnull) else r1
        let r3 := if alistHas spfs "region" then
            alistSet r2 "region" (alistGetD spfs "region" .jnull) else r2
        match alistGet spfs "kafka_cluster" with
        | some (.jobj kcfs) => alistSet r3 "kafka_cluster" (alistGetD kcfs "id" .jnull)
        | _ => r3
      | _ => r0
    some r4
  | _ => none

/-- The KSQL item loop for one environment, threading `len(resources)`. -/
def ksqlItems (envId envName : JVal) : List JVal → Nat → List PyDict
  | [], _ => []
  | k :: ks, curLen =>
    match ksqlOne envId envName curLen k with
    | none => ksqlItems envId envName ks curLen
    | some r => r :: ksqlItems envId envName ks (curLen + 1)

/-- URL of line 159. -/
def ksqlUrl (envId : JVal) : String :=
  BASE_URL ++ "/ksqldbcm/v2/clusters?environment=" ++ pyStr envId

/-- The ksql branch (lines 156-207): non-200, non-dict responses and
non-list `data` are skipped per environment. -/
def ksqlBranch (http : Http) (envs : List (JVal × JVal)) : List PyDict :=
  envs.foldl
    (fun acc env =>
      let resp := http (ksqlUrl env.1)
      if resp.status ≠ 200 then acc
      else
        match resp.body with
        | .jobj fs =>
          match alistGetD fs "data" .jnull with
          | .jarr ks => acc ++ ksqlItems env.1 env.2 ks acc.length
          | _ => acc
        | _ => acc)
    []

/-- URL of line 217. -/
def connListUrl (envId kafkaId : JVal) : String :=
  BASE_URL ++ "/connect/v1/environments/" ++ pyStr envId ++ "/clusters/" ++
    pyStr kafkaId ++ "/connectors"

/-- URL of line 229. -/
def connDetailUrl (envId kafkaId nm : JVal) : String :=
  connListUrl envId kafkaId ++ "/" ++ pyStr nm

/-- The per-connector-name loop (lines 227-244), inside `try`: a failing
detail request skips that connector; an exception while reading
`cluster["spec"]["display_name"]` stops the loop keeping the prefix.
(`detail_resp.json()` is parsed but unused by the source.) -/
def connNamesLoop (http : Http) (envId envName kafkaId cl : JVal) : List JVal → List PyDict
  | [] => []
  | nm :: rest =>
    let dresp := http (connDetailUrl envId kafkaId nm)
    if dresp.status ≠ 200 then connNamesLoop http envId envName kafkaId cl rest
    else
      match pySub cl "spec" with
      | some spec =>
        match pySub spec "display_name" with
        | some dn =>
          [("id", nm), ("name", nm), ("environment", envId), ("environment_name", envName),
            ("cluster_id", kafkaId), ("cluster_name", dn)] ::
            connNamesLoop http envId envName kafkaId cl rest
        | none => []
      | none => []

/-- The connector branch, one Kafka cluster (lines 214-246):
`cluster["id"]` is read outside the `try` (an exception aborts the run);
a non-list connectors body appends nothing. -/
def connCluster (http : Http) (envId envName : JVal) (acc : List PyDict) (cl : JVal) :
    Option (List PyDict) :=
  match pySub cl "id" with
  | none => none
  | some kafkaId =>
    let resp := http (connListUrl envId kafkaId)
    if resp.status ≠ 200 then some acc
    else
      match resp.body with
      | .jarr names => some (acc ++ connNamesLoop http envId envName kafkaId cl names)
      | _ => some acc

/-- The connector branch, one environment (lines 212-246). -/
def connEnv (http : Http) (acc : List PyDict) (env : JVal × JVal) : Option (List PyDict) :=
  match fetch_kafka_clusters http env.1 with
  | none => none
  | some clusters =>
    match pyIterate clusters with
    | none => none
    | some items => foldOpt (connCluster http env.1 env.2) acc items

/-- The connector branch of `fetch_resource_ids` (lines 209-246). -/
def connBranch (http : Http) (envs : List (JVal × JVal)) : Option (List PyDict) :=
  foldOpt (connEnv http) [] envs

/-- URL of line 252. -/
def fcpmUrl (envId : JVal) : String :=
  BASE_URL ++ "/fcpm/v2/compute-pools?environment=" ++ pyStr envId

/-- One Flink compute-pool record (lines 260-268); `none` is an exception,
caught per environment keeping the prefix. -/
def flinkPoolOne (envId envName : JVal) (pool : JVal) : Option PyDict :=
  match pool with
  | .jobj pfs =>
    match alistGet pfs "id" with
    | some idv =>
      match alistGetD pfs "spec" (.jobj []) with
      | .jobj spfs =>
        some [("id", idv), ("name", alistGetD spfs "display_name" idv),
          ("environment", envId), ("environment_name", envName),
          ("cloud", alistGetD spfs "cloud" .jnull),
          ("region", alistGetD spfs "region" .jnull)]
      | _ => none
    | none => none
  | _ => none

/-- The `try` body for one environments compute pools (lines 258-270). -/
def flinkPoolsParse (envId envName : JVal) (body : JVal) : List PyDict :=
  match body with
  | .jobj fs =>
    match pyIterate (alistGetD fs "data" (.jarr [])) with
    | none => []
    | some pools => takeWhileSome (flinkPoolOne envId envName) pools
  | _ => []

/-- Compute-pool collection across environments (lines 249-270). -/
def flinkPools (http : Http) (envs : List (JVal × JVal)) : List PyDict :=
  envs.foldl
    (fun acc env =>
      let resp := http (fcpmUrl env.1)
      if resp.status ≠ 200 then acc
      else acc ++ flinkPoolsParse env.1 env.2 resp.body)
    []

/-- URL of line 279. -/
def orgEnvUrl (envId : JVal) : String :=
  BASE_URL ++ "/org/v2/environments/" ++ pyStr envId

/-- The org-id lookup (lines 274-282): reads the first environments detail
record; on non-200 (or no environments) `org_id` stays `None`; a non-dict
body raises, uncaught. -/
def flinkOrgId (http : Http) (envs : List (JVal × JVal)) : Option JVal :=
  match envs with
  | [] => some .jnull
  | env :: _ =>
    let resp := http (orgEnvUrl env.1)
    if resp.status = 200 then
      match resp.body with
      | .jobj fs => some (alistGetD fs "org_id" .jnull)
      | _ => none
    else some .jnull

/-- URL of line 286. -/
def stmtsUrl (orgId envId : JVal) : String :=
  BASE_URL ++ "/sql/v1/organizations/" ++ pyStr orgId ++ "/environments/" ++
    pyStr envId ++ "/statements"

/-- One Flink SQL statement record (lines 296-302). -/
def flinkStmtOne (envId envName : JVal) (stmt : JVal) : Option PyDict :=
  match pySub stmt "name" with
  | some nv => some [("id", nv), ("name", nv), ("environment", envId),
      ("environment_name", envName)]
  | none => none

/-- Statement collection across environments (lines 284-304). -/
def flinkStmts (http : Http) (orgId : JVal) (envs : List (JVal × JVal)) : List PyDict :=
  envs.foldl
    (fun acc env =>
      let resp := http (stmtsUrl orgId env.1)
      if resp.status ≠ 200 then acc
      else
        match resp.body with
        | .jarr stmts => acc ++ takeWhileSome (flinkStmtOne env.1 env.2) stmts
        | _ => acc)
    []

/-- The flink branch of `fetch_resource_ids` (lines 248-304): pools first,
then statements only when a truthy org id was resolved. -/
def flinkBranch (http : Http) (envs : List (JVal × JVal)) : Option (List PyDict) :=
  let pools := flinkPools http envs
  match flinkOrgId http envs with
  | none => none
  | some orgId =>
    if pyTruthy orgId then some (pools ++ flinkStmts http orgId envs)
    else some pools

/-- `fetch_resource_ids` (lines 111-313): string-keyed dispatch over the
five known kinds; any other resource type logs a warning and returns `[]`.
(The unused `resource_metadata` parameter of the source is dropped.) -/
def fetch_resource_ids (http : Http) (envs : List (JVal × JVal)) (resource_type : JVal) :
    Option (List PyDict) :=
  if resource_type = JVal.jstr "kafka" then kafkaBranch http envs
  else if resource_type = JVal.jstr "schema_registry" then some (srBranch http envs)
  else if resource_type = JVal.jstr "ksql" then some (ksqlBranch http envs)
  else if resource_type = JVal.jstr "connector" then connBranch http envs
  else if resource_type = JVal.jstr "flink" then flinkBranch http envs
  else some []

/-- `cloud_map` (lines 319-323). -/
def cloud_map : List (String × String) :=
  [("AWS", "aws"), ("GCP", "gcp"), ("AZURE", "azure")]

/-- `env_map` (lines 324-336), in source (insertion) order. -/
def env_map : List (String × String) :=
  [("prod", "production"), ("prd", "production"), ("production", "production"),
   ("stg", "staging"), ("staging", "staging"), ("stage", "staging"),
   ("dev", "development"), ("development", "development"),
   ("test", "test"), ("tst", "test"), ("qa", "test")]

/-- Line 346: `next((env_map[k] for k in env_map if k in env_name), "other")`,
applied to the already-lowered environment name. -/
def envTypeOfName (envNameLower : String) : String :=
  match env_map.find? (fun p => pyContains envNameLower p.1) with
  | some p => p.2
  | none => "other"

/-- Lines 340-341: for kafka, copy `kind` into `service_tier` when present. -/
def stdKindStep (resource_type : JVal) (d : PyDict) : PyDict :=
  if resource_type = JVal.jstr "kafka" then
    (if alistHas d "kind" then alistSet d "service_tier" (alistGetD d "kind" .jnull) else d)
  else d

/-- Lines 342-344: when `cloud` is present and not `None`, uppercase it and
map through `cloud_map` with the `.lower()` of the uppercased value as
default. A present non-string non-null cloud raises on `.upper()`. -/
def stdCloudStep (d : PyDict) : Option PyDict :=
  match alistGet d "cloud" with
  | some (.jstr c) =>
    some (alistSet d "cloud_provider"
      (.jstr (alistGetD cloud_map (pyUpper c) (pyLower (pyUpper c)))))
  | some .jnull => some d
  | none => some d
  | some _ => none

/-- Lines 345-346: classify `environment_type` from the lowered environment
name (`""` when the key is absent); a non-string value raises on `.lower()`. -/
def stdEnvStep (d : PyDict) : Option PyDict :=
  match alistGet d "environment_name" with
  | some (.jstr s) =>
    some (alistSet d "environment_type" (.jstr (envTypeOfName (pyLower s))))
  | none => some (alistSet d "environment_type" (.jstr (envTypeOfName (pyLower ""))))
  | some _ => none

/-- The body of the `standardize_labels` loop for one resource
(lines 338-346): set `component_type`, then the kind, cloud and environment
steps. `none` models an uncaught exception. -/
def standardizeOne (resource_type : JVal) (r : PyDict) : Option PyDict :=
  match stdCloudStep (stdKindStep resource_type (alistSet r "component_type" resource_type)) with
  | none => none
  | some r3 => stdEnvStep r3

/-- `standardize_labels` (lines 317-347): mutates each resource in place and
returns the same list. -/
def standardize_labels (resources : List PyDict) (resource_type : JVal) :
    Option (List PyDict) :=
  mapOpt (standardizeOne resource_type) resources

/-- A generated service-discovery document (lines 399-410): the single
element of the written YAML list, with its fixed target, the four labels and
the one-key params map. Storing the structured document models
`yaml.safe_dump` up to its (injective) serialization. -/
structure SDoc where
  targets : List String
  job : String
  environment : String
  cloud_provider : JVal
  environment_type : JVal
  paramsKey : String
  paramsIds : List JVal
deriving DecidableEq

/-- Line 385: `env_name.lower().replace(" ", "_").replace("-", "_")`. -/
def sanitizeEnv (s : String) : String :=
  String.mk ((pyLower s).data.map fun c => if c = ' ' ∨ c = '-' then '_' else c)

/-- One (cloud, resources) group of one environment (lines 394-420): the
basename of the file written and its document. `cloud_data[0]` on an empty
group or a missing `r["id"]` raises (`none`). -/
def cloudFileOf (resource_type : JVal) (envStr safeEnv : String) (p : JVal × List PyDict) :
    Option (String × SDoc) :=
  match p.2 with
  | [] => none
  | r0 :: _ =>
    match mapOpt (fun r => alistGet r "id") p.2 with
    | none => none
    | some ids =>
      some (pyStr resource_type ++ "_" ++ safeEnv ++ "_" ++ pyStr p.1 ++ ".yml",
        { targets := ["api.telemetry.confluent.cloud"],
          job := "confluent_" ++ pyStr resource_type,
          environment := envStr,
          cloud_provider := p.1,
          environment_type := alistGetD r0 "environment_type" (.jstr "other"),
          paramsKey := "resource." ++ pyStr resource_type ++ ".id",
          paramsIds := ids })

/-- One environment group of one resource type (lines 380-420): sanitize the
environment name (raising on a non-string one), group by cloud provider
(raising on an unhashable key), emit one file per cloud group. -/
def envFilesOf (resource_type : JVal) (p : JVal × List PyDict) :
    Option (List (String × SDoc)) :=
  if p.2.isEmpty then some []
  else
    match p.1 with
    | .jstr envStr =>
      if p.2.all (fun r => jHashable (alistGetD r "cloud_provider" (.jstr "unknown"))) then
        mapOpt (cloudFileOf resource_type envStr (sanitizeEnv envStr))
          (groupByKey (fun r => alistGetD r "cloud_provider" (.jstr "unknown")) p.2)
      else none
    | _ => none

/-- The environment grouping of one resource type after the
`no_telemetry_id` filter (lines 369-420): group by environment name
(default "unknown", raising on an unhashable key), then emit each
environments files. -/
def genWritesKeep (resource_type : JVal) (keep : List PyDict) :
    Option (List (String × SDoc)) :=
  if keep.all (fun r => jHashable (alistGetD r "environment_name" (.jstr "unknown"))) then
    match mapOpt (envFilesOf resource_type)
        (groupByKey (fun r => alistGetD r "environment_name" (.jstr "unknown")) keep) with
    | none => none
    | some ls => some ls.flatten
  else none

/-- The files written for one resource type (lines 365-420): skip an empty
resource list, drop resources with a truthy `no_telemetry_id`, group by
environment name, then by cloud provider. -/
def genWritesForType (resource_type : JVal) (resources : List PyDict) :
    Option (List (String × SDoc)) :=
  if resources.isEmpty then some []
  else genWritesKeep resource_type
    (resources.filter fun r => !pyTruthy (alistGetD r "no_telemetry_id" .jnull))

/-- All files written during one run, in write order (lines 364-420). -/
def genWritesAll (groups : List (JVal × List PyDict)) : Option (List (String × SDoc)) :=
  match mapOpt (fun p => genWritesForType p.1 p.2) groups with
  | none => none
  | some ls => some ls.flatten

/-- `os.path.abspath` for the path shapes the script uses: a path starting
with "/" is already absolute, otherwise the current working directory is
prepended (no `..` normalization is needed for these paths). -/
def pyAbspath (cwd p : String) : String :=
  if p.data.head? = some '/' then p else cwd ++ "/" ++ p

/-- Result of `generate_sd_files`: the final contents of the output
directory (basename to document) and the returned `.yml` listing. -/
structure GenResult where
  dir : List (String × SDoc)
  listing : List String
deriving DecidableEq

/-- `generate_sd_files` (lines 351-432). `cwd` is the process working
directory (`os.getcwd()`, always absolute); `dir` holds the output
directory entries before the run. Faithfully to the source,
`existing_files` (line 359) holds the *relative* joined paths while
`new_files` (line 414) holds *absolute* ones, and the deletion set
(line 423) is their set difference; `os.remove` resolves each relative
path against `cwd`, i.e. deletes the directory entry of that basename.
Deletion failures (logged, line 429) are not modelled: every remove
succeeds. The returned listing is `os.listdir` filtered to `.yml`
(line 432). -/
def generate_sd_files (cwd : String) (groups : List (JVal × List PyDict))
    (dir : List (String × SDoc)) : Option GenResult :=
  match genWritesAll groups with
  | none => none
  | some writes =>
    let existing := ((dir.map Prod.fst).filter fun f => pyEndsWith f ".yml").map
      fun f => SD_DIR ++ "/" ++ f
    let newAbs := writes.map fun wr => pyAbspath cwd (SD_DIR ++ "/" ++ wr.1)
    let dir1 := writes.foldl (fun d wr => alistSet d wr.1 wr.2) dir
    let toRemove := existing.filter fun q => !((newAbs.map (pyAbspath cwd)).contains q)
    let dir2 := toRemove.foldl (fun d q => d.filter fun e => !(SD_DIR ++ "/" ++ e.1 == q)) dir1
    some { dir := dir2, listing := (dir2.map Prod.fst).filter fun f => pyEndsWith f ".yml" }

/-- The per-type counts printed by the summary loop (line 476):
`print(f"{resource_type}: {len(resources)} resources")`. -/
def summaryCounts (groups : List (JVal × List PyDict)) : List (JVal × Nat) :=
  groups.map fun p => (p.1, p.2.length)

/-- One backward-compatibility cluster entry (lines 465-471); missing
`id`/`name` raise. -/
def clusterGroupEntry (c : PyDict) : Option PyDict :=
  match alistGet c "id", alistGet c "name" with
  | some idv, some namev =>
    some [("id", idv), ("name", namev), ("kind", alistGetD c "kind" (.jstr "Unknown")),
      ("cloud", alistGetD c "cloud" (.jstr "Unknown")),
      ("region", alistGetD c "region" (.jstr "Unknown"))]
  | _, _ => none

/-- `cluster_groups` construction (lines 461-471). -/
def clusterGroupsBuild (kafkaList : List PyDict) : Option (List (JVal × List PyDict)) :=
  foldOpt
    (fun acc c =>
      let envName := alistGetD c "environment_name" (.jstr "Unknown")
      if jHashable envName then
        match clusterGroupEntry c with
        | none => none
        | some e => some (alistPush acc envName e)
      else none)
    [] kafkaList

/-- The connector debug block of the summary (lines 479-484): subscripts
`['name']` and `['id']` on the sample may raise. -/
def summaryConnectorCheck (groups : List (JVal × List PyDict)) : Option Unit :=
  foldOpt
    (fun _ p =>
      if p.1 = JVal.jstr "connector" then
        match p.2.filter (fun r => !pyTruthy (alistGetD r "no_telemetry_id" (.jbool false))) with
        | [] => some ()
        | v0 :: _ =>
          match alistGet v0 "name", alistGet v0 "id" with
          | some _, some _ => some ()
          | _, _ => none
      else some ())
    () groups

/-- The whole process state the script reads: credentials (lines 10-11),
the HTTP oracle, the working directory and the output directory contents. -/
structure World where
  apiKey : Option String
  apiSecret : Option String
  http : Http
  cwd : String
  dir : List (String × SDoc)

/-- Line 13: `not CLOUD_API_KEY or not CLOUD_API_SECRET` (`os.getenv` gives
`None` when unset; the empty string is also falsy). -/
def credsMissing (w : World) : Bool :=
  !(match w.apiKey with
    | some s => s != ""
    | none => false) ||
  !(match w.apiSecret with
    | some s => s != ""
    | none => false)

/-- The resource-collection loop (lines 446-457), including the
`metadata['description']` subscript of the progress print (line 451). -/
def collectGroups (http : Http) (envs : List (JVal × JVal)) (rts : List (JVal × PyDict)) :
    Option (List (JVal × List PyDict)) :=
  foldOpt
    (fun acc p =>
      match alistGet p.2 "description" with
      | none => none
      | some _ =>
        match fetch_resource_ids http envs p.1 with
        | none => none
        | some rs =>
          match standardize_labels rs p.1 with
          | none => none
          | some rs2 => some (alistSet acc p.1 rs2))
    [] rts

/-- The tail of the script after resource-type discovery (lines 446-501):
collection, summaries and file generation. The example-config write
(lines 505-541) and the prints touch no data and are not modelled. -/
def mainPipeline (w : World) (envs : List (JVal × JVal)) (rts : List (JVal × PyDict)) :
    Option GenResult :=
  match collectGroups w.http envs rts with
  | none => none
  | some groups =>
    let cg : Option Unit :=
      match alistGet groups (JVal.jstr "kafka") with
      | some kafkaList => (clusterGroupsBuild kafkaList).map fun _ => ()
      | none => some ()
    match cg with
    | none => none
    | some _ =>
      match summaryConnectorCheck groups with
      | none => none
      | some _ => generate_sd_files w.cwd groups w.dir

/-- The whole run as an exit-code computation: `some 1` is an explicit
`exit(1)` (lines 15, 45, 87), `some 0` a completed run, `none` an uncaught
exception (Python would abort with a traceback). `fuel` bounds the
environment-listing pagination. -/
def runMain (fuel : Nat) (w : World) : Option Nat :=
  if credsMissing w then some 1
  else
    match fetch_environments w.http fuel with
    | none => none
    | some (Except.error _) => some 1
    | some (Except.ok envs) =>
      match get_resource_types w.http with
      | none => none
      | some (Except.error _) => some 1
      | some (Except.ok rts) => (mainPipeline w envs rts).map fun _ => 0

instance {e a : Type} [DecidableEq e] [DecidableEq a] : DecidableEq (Except e a) := fun x y =>
  match x, y with
  | .error u, .error v =>
    if h : u = v then isTrue (by rw [h]) else isFalse fun hh => h (by injection hh)
  | .ok u, .ok v =>
    if h : u = v then isTrue (by rw [h]) else isFalse fun hh => h (by injection hh)
  | .error _, .ok _ => isFalse nofun
  | .ok _, .error _ => isFalse nofun

/-! ## General lemmas about the dict and loop combinators -/

theorem alistGet_set_self {κ β : Type} [DecidableEq κ] (l : List (κ × β)) (k : κ) (v : β) :
    alistGet (alistSet l k v) k = some v := by
  induction l with
  | nil => simp [alistSet, alistGet]
  | cons p ps ih =>
    by_cases h : p.1 = k
    · simp [alistSet, h, alistGet]
    · simp [alistSet, h, alistGet, ih]

theorem alistGet_set_ne {κ β : Type} [DecidableEq κ] (l : List (κ × β)) (k k2 : κ) (v : β)
    (h : k2 ≠ k) : alistGet (alistSet l k v) k2 = alistGet l k2 := by
  induction l with
  | nil =>
    simp only [alistSet, alistGet]
    rw [if_neg (Ne.symm h)]
  | cons p ps ih =>
    simp only [alistSet]
    by_cases hp : p.1 = k
    · rw [if_pos hp]
      simp only [alistGet]
      rw [if_neg (Ne.symm h), if_neg fun hh => h (hh.symm.trans hp)]
    · rw [if_neg hp]
      simp only [alistGet]
      by_cases hq : p.1 = k2
      · rw [if_pos hq, if_pos hq]
      · rw [if_neg hq, if_neg hq, ih]

theorem mapOpt_length {α β : Type} (f : α → Option β) (l : List α) (out : List β)
    (h : mapOpt f l = some out) : out.length = l.length := by
  induction l generalizing out with
  | nil =>
    simp [mapOpt] at h
    simp [← h]
  | cons x xs ih =>
    simp only [mapOpt] at h
    cases hx : f x with
    | none => simp [hx] at h
    | some y =>
      cases hxs : mapOpt f xs with
      | none => simp [hx, hxs] at h
      | some ys =>
        simp [hx, hxs] at h
        subst h
        simp [ih ys hxs]

theorem mapOpt_get {α β : Type} (f : α → Option β) (l : List α) (out : List β)
    (h : mapOpt f l = some out) :
    ∀ i (h1 : i < l.length) (h2 : i < out.length),
      f (l.get ⟨i, h1⟩) = some (out.get ⟨i, h2⟩) := by
  induction l generalizing out with
  | nil => intro i h1 _; simp at h1
  | cons x xs ih =>
    simp only [mapOpt] at h
    cases hx : f x with
    | none => simp [hx] at h
    | some y =>
      cases hxs : mapOpt f xs with
      | none => simp [hx, hxs] at h
      | some ys =>
        simp [hx, hxs] at h
        subst h
        intro i h1 h2
        cases i with
        | zero => simpa using hx
        | succ j =>
          simp only [List.get]
          exact ih ys hxs j (by simpa using h1) (by simpa using h2)

theorem mapOpt_mem {α β : Type} (f : α → Option β) (l : List α) (out : List β)
    (h : mapOpt f l = some out) : ∀ y ∈ out, ∃ x ∈ l, f x = some y := by
  induction l generalizing out with
  | nil =>
    simp [mapOpt] at h
    subst h
    intro y hy
    simp at hy
  | cons x xs ih =>
    simp only [mapOpt] at h
    cases hx : f x with
    | none => simp [hx] at h
    | some y =>
      cases hxs : mapOpt f xs with
      | none => simp [hx, hxs] at h
      | some ys =>
        simp [hx, hxs] at h
        subst h
        intro z hz
        rcases List.mem_cons.mp hz with hz | hz
        · exact ⟨x, List.mem_cons_self x xs, by rw [hx, hz]⟩
        · rcases ih ys hxs z hz with ⟨x2, hx2, hfx2⟩
          exact ⟨x2, List.mem_cons_of_mem x hx2, hfx2⟩

theorem alistPush_mem {κ β : Type} [DecidableEq κ] (acc : List (κ × List β)) (k0 : κ) (x : β)
    (k : κ) (l : List β) (a : β) (hmem : (k, l) ∈ alistPush acc k0 x) (ha : a ∈ l) :
    (∃ l0, (k, l0) ∈ acc ∧ a ∈ l0) ∨ a = x := by
  induction acc with
  | nil =>
    simp [alistPush] at hmem
    rcases hmem with ⟨hk, hl⟩
    subst hl
    right
    simpa using ha
  | cons p ps ih =>
    by_cases hp : p.1 = k0
    · simp only [alistPush, if_pos hp] at hmem
      rcases List.mem_cons.mp hmem with hm | hm
      · have hk : p.1 = k := (congrArg Prod.fst hm).symm
        have hl : l = p.2 ++ [x] := congrArg Prod.snd hm
        rw [hl] at ha
        rcases List.mem_append.mp ha with h2 | h2
        · left
          exact ⟨p.2, by rw [← hk]; exact List.mem_cons_self p ps, h2⟩
        · right
          simpa using h2
      · left
        exact ⟨l, List.mem_cons_of_mem p hm, ha⟩
    · simp only [alistPush, if_neg hp] at hmem
      rcases List.mem_cons.mp hmem with hm | hm
      · left
        exact ⟨l, by rw [hm]; exact List.mem_cons_self _ ps, ha⟩
      · rcases ih hm with ⟨l0, hl0, ha0⟩ | hax
        · left
          exact ⟨l0, List.mem_cons_of_mem p hl0, ha0⟩
        · right
          exact hax

theorem groupByKey_foldl_mem {κ β : Type} [DecidableEq κ] (f : β → κ) (xs : List β)
    (acc : List (κ × List β)) (k : κ) (l : List β) (a : β)
    (hmem : (k, l) ∈ xs.foldl (fun acc x => alistPush acc (f x) x) acc) (ha : a ∈ l) :
    (∃ l0, (k, l0) ∈ acc ∧ a ∈ l0) ∨ a ∈ xs := by
  induction xs generalizing acc with
  | nil =>
    left
    exact ⟨l, by simpa using hmem, ha⟩
  | cons x xs ih =>
    simp only [List.foldl_cons] at hmem
    rcases ih (alistPush acc (f x) x) hmem with ⟨l0, hl0, ha0⟩ | hax
    · rcases alistPush_mem acc (f x) x k l0 a hl0 ha0 with ⟨l1, hl1, ha1⟩ | hax
      · left
        exact ⟨l1, hl1, ha1⟩
      · right
        rw [hax]
        exact List.mem_cons_self x xs
    · right
      exact List.mem_cons_of_mem x hax

theorem groupByKey_mem {κ β : Type} [DecidableEq κ] (f : β → κ) (xs : List β)
    (k : κ) (l : List β) (a : β) (hmem : (k, l) ∈ groupByKey f xs) (ha : a ∈ l) : a ∈ xs := by
  rcases groupByKey_foldl_mem f xs [] k l a hmem ha with ⟨l0, hl0, _⟩ | hax
  · simp at hl0
  · exact hax

/-! ## Structure of `standardizeOne` -/

theorem stdKindStep_get (rt : JVal) (d : PyDict) (k : String) (h : k ≠ "service_tier") :
    alistGet (stdKindStep rt d) k = alistGet d k := by
  unfold stdKindStep
  split
  · split
    · exact alistGet_set_ne d "service_tier" k _ h
    · rfl
  · rfl

theorem stdCloudStep_get (d d2 : PyDict) (hs : stdCloudStep d = some d2) (k : String)
    (h : k ≠ "cloud_provider") : alistGet d2 k = alistGet d k := by
  unfold stdCloudStep at hs
  cases hc : alistGet d "cloud" with
  | none =>
    rw [hc] at hs
    injection hs with h2
    rw [← h2]
  | some v =>
    cases v with
    | jstr c =>
      rw [hc] at hs
      injection hs with h2
      rw [← h2]
      exact alistGet_set_ne d "cloud_provider" k _ h
    | jnull =>
      rw [hc] at hs
      injection hs with h2
      rw [← h2]
    | jnum n => rw [hc] at hs; cases hs
    | jbool b => rw [hc] at hs; cases hs
    | jarr xs => rw [hc] at hs; cases hs
    | jobj fs => rw [hc] at hs; cases hs

theorem stdCloudStep_sets (d d2 : PyDict) (hs : stdCloudStep d = some d2) (c : String)
    (hc : alistGet d "cloud" = some (.jstr c)) :
    alistGet d2 "cloud_provider" =
      some (.jstr (alistGetD cloud_map (pyUpper c) (pyLower (pyUpper c)))) := by
  unfold stdCloudStep at hs
  rw [hc] at hs
  injection hs with h2
  rw [← h2]
  exact alistGet_set_self d "cloud_provider" _

theorem stdCloudStep_skip (d d2 : PyDict) (hs : stdCloudStep d = some d2)
    (hc : alistGet d "cloud" = none ∨ alistGet d "cloud" = some .jnull) : d2 = d := by
  unfold stdCloudStep at hs
  rcases hc with hc | hc <;>
    · rw [hc] at hs
      injection hs with h2
      exact h2.symm

theorem stdEnvStep_get (d o : PyDict) (hs : stdEnvStep d = some o) (k : String)
    (h : k ≠ "environment_type") : alistGet o k = alistGet d k := by
  unfold stdEnvStep at hs
  cases hc : alistGet d "environment_name" with
  | none =>
    rw [hc] at hs
    injection hs with h2
    rw [← h2]
    exact alistGet_set_ne d "environment_type" k _ h
  | some v =>
    cases v with
    | jstr s =>
      rw [hc] at hs
      injection hs with h2
      rw [← h2]
      exact alistGet_set_ne d "environment_type" k _ h
    | jnull => rw [hc] at hs; cases hs
    | jnum n => rw [hc] at hs; cases hs
    | jbool b => rw [hc] at hs; cases hs
    | jarr xs => rw [hc] at hs; cases hs
    | jobj fs => rw [hc] at hs; cases hs

theorem stdEnvStep_sets (d o : PyDict) (hs : stdEnvStep d = some o) (s : String)
    (hn : alistGet d "environment_name" = some (.jstr s)) :
    alistGet o "environment_type" = some (.jstr (envTypeOfName (pyLower s))) := by
  unfold stdEnvStep at hs
  rw [hn] at hs
  injection hs with h2
  rw [← h2]
  exact alistGet_set_self d "environment_type" _

theorem standardizeOne_frame (rt : JVal) (r o : PyDict) (h : standardizeOne rt r = some o)
    (k : String) (h1 : k ≠ "component_type") (h2 : k ≠ "service_tier")
    (h3 : k ≠ "cloud_provider") (h4 : k ≠ "environment_type") :
    alistGet o k = alistGet r k := by
  unfold standardizeOne at h
  cases hc : stdCloudStep (stdKindStep rt (alistSet r "component_type" rt)) with
  | none => rw [hc] at h; cases h
  | some r3 =>
    rw [hc] at h
    calc alistGet o k = alistGet r3 k := stdEnvStep_get r3 o h k h4
      _ = alistGet (stdKindStep rt (alistSet r "component_type" rt)) k :=
        stdCloudStep_get _ r3 hc k h3
      _ = alistGet (alistSet r "component_type" rt) k := stdKindStep_get rt _ k h2
      _ = alistGet r k := alistGet_set_ne r "component_type" k rt h1

theorem standardizeOne_envtype (rt : JVal) (r o : PyDict) (h : standardizeOne rt r = some o)
    (s : String) (hn : alistGet r "environment_name" = some (.jstr s)) :
    alistGet o "environment_type" = some (.jstr (envTypeOfName (pyLower s))) := by
  unfold standardizeOne at h
  cases hc : stdCloudStep (stdKindStep rt (alistSet r "component_type" rt)) with
  | none => rw [hc] at h; cases h
  | some r3 =>
    rw [hc] at h
    have hn3 : alistGet r3 "environment_name" = some (.jstr s) := by
      rw [stdCloudStep_get _ r3 hc _ (by decide), stdKindStep_get rt _ _ (by decide),
        alistGet_set_ne r "component_type" _ rt (by decide)]
      exact hn
    exact stdEnvStep_sets r3 o h s hn3

theorem standardizeOne_cloud (rt : JVal) (r o : PyDict) (h : standardizeOne rt r = some o)
    (c : String) (hc : alistGet r "cloud" = some (.jstr c)) :
    alistGet o "cloud_provider" =
      some (.jstr (alistGetD cloud_map (pyUpper c) (pyLower (pyUpper c)))) := by
  unfold standardizeOne at h
  cases hcs : stdCloudStep (stdKindStep rt (alistSet r "component_type" rt)) with
  | none => rw [hcs] at h; cases h
  | some r3 =>
    rw [hcs] at h
    have hx : alistGet (stdKindStep rt (alistSet r "component_type" rt)) "cloud" =
        some (.jstr c) := by
      rw [stdKindStep_get rt _ _ (by decide),
        alistGet_set_ne r "component_type" _ rt (by decide)]
      exact hc
    rw [stdEnvStep_get r3 o h "cloud_provider" (by decide)]
    exact stdCloudStep_sets _ r3 hcs c hx

theorem standardizeOne_nocloud (rt : JVal) (r o : PyDict) (h : standardizeOne rt r = some o)
    (hc : alistGet r "cloud" = none ∨ alistGet r "cloud" = some .jnull) :
    alistGet o "cloud_provider" = alistGet r "cloud_provider" := by
  unfold standardizeOne at h
  cases hcs : stdCloudStep (stdKindStep rt (alistSet r "component_type" rt)) with
  | none => rw [hcs] at h; cases h
  | some r3 =>
    rw [hcs] at h
    have hx : alistGet (stdKindStep rt (alistSet r "component_type" rt)) "cloud" =
        alistGet r "cloud" := by
      rw [stdKindStep_get rt _ _ (by decide),
        alistGet_set_ne r "component_type" _ rt (by decide)]
    have h3 : r3 = stdKindStep rt (alistSet r "component_type" rt) :=
      stdCloudStep_skip _ r3 hcs (by rw [hx]; exact hc)
    rw [stdEnvStep_get r3 o h "cloud_provider" (by decide), h3,
      stdKindStep_get rt _ _ (by decide),
      alistGet_set_ne r "component_type" _ rt (by decide)]

/-! ## Definitions stated from the claims (for refinement comparison) -/

/-- The ordered alias table exactly as the claim words it:
prod/prd/production, stg/staging/stage, dev/development, test/tst/qa. -/
def claimEnvAliases : List (String × String) :=
  [("prod", "production"), ("prd", "production"), ("production", "production"),
   ("stg", "staging"), ("staging", "staging"), ("stage", "staging"),
   ("dev", "development"), ("development", "development"),
   ("test", "test"), ("tst", "test"), ("qa", "test")]

/-- Claim C5 wording: case-insensitive substring match of the environment
name against the ordered alias table, first match wins, default "other". -/
def claimEnvType (name : String) : String :=
  match claimEnvAliases.find? (fun p => pyContains (pyLower name) p.1) with
  | some p => p.2
  | none => "other"

/-- Claim C9 wording: the fixed table AWS, GCP, AZURE. -/
def claimCloudTable : List (String × String) :=
  [("AWS", "aws"), ("GCP", "gcp"), ("AZURE", "azure")]

/-- Claim C9 wording: uppercase the cloud, map through the fixed table, and
fall back to the lower-cased raw value. -/
def claimCloudOf (c : String) : String :=
  alistGetD claimCloudTable (pyUpper c) (pyLower c)

/-- Claim C6 wording: the first label whose key contains "id"
case-insensitively and whose exportable flag is true. -/
def claimIdLabel (ls : List (String × Bool)) : Option String :=
  (ls.find? fun p => pyContains (pyLower p.1) "id" && p.2).map Prod.fst

/-- A label descriptor `(key, exportable)` as the JSON object the API
returns. -/
def labelDictOf (p : String × Bool) : JVal :=
  .jobj [("key", .jstr p.1), ("exportable", .jbool p.2)]

theorem claimEnvType_eq (s : String) : claimEnvType s = envTypeOfName (pyLower s) := rfl

theorem claimCloudOf_eq (c : String) :
    claimCloudOf c = alistGetD cloud_map (pyUpper c) (pyLower (pyUpper c)) := by
  have ht : claimCloudTable = cloud_map := rfl
  unfold claimCloudOf
  rw [ht, pyLower_pyUpper]

/-! ## Concrete fixtures used in claim theorems and witnesses -/

def resPROD : PyDict := [("environment_name", .jstr "PROD-east")]

def resSTG : PyDict := [("environment_name", .jstr "staging-2")]

def resQA : PyDict := [("environment_name", .jstr "qa-cluster")]

def resSBX : PyDict := [("environment_name", .jstr "sandbox")]

def outPROD : PyDict :=
  [("environment_name", .jstr "PROD-east"), ("component_type", .jstr "kafka"),
   ("environment_type", .jstr "production")]

def resAWS : PyDict := [("cloud", .jstr "AWS")]

def resOCI : PyDict := [("cloud", .jstr "OCI")]

def resNoCloud : PyDict := [("name", .jstr "x")]

def outAWS : PyDict :=
  [("cloud", .jstr "AWS"), ("component_type", .jstr "ksql"),
   ("cloud_provider", .jstr "aws"), ("environment_type", .jstr "other")]

/-! ## Claim theorems -/

/-- Claim C5: `standardize_labels` derives `environment_type` by
case-insensitive substring match of the environment name against the
ordered alias table prod/prd/production, stg/staging/stage,
dev/development, test/tst/qa, first match winning, defaulting to "other";
in particular "PROD-east" maps to "production", "staging-2" to "staging",
"qa-cluster" to "test" and "sandbox" to "other". -/
theorem C5_environment_type_classification :
    (∀ (rs : List PyDict) (rt : JVal) (out : List PyDict),
      standardize_labels rs rt = some out →
      ∀ i (h1 : i < rs.length) (h2 : i < out.length) (s : String),
        alistGet (rs.get ⟨i, h1⟩) "environment_name" = some (.jstr s) →
        alistGet (out.get ⟨i, h2⟩) "environment_type" = some (.jstr (claimEnvType s))) ∧
    (standardize_labels [resPROD, resSTG, resQA, resSBX] (.jstr "kafka")).map
        (fun l => l.map fun r => alistGet r "environment_type") =
      some [some (.jstr "production"), some (.jstr "staging"), some (.jstr "test"),
        some (.jstr "other")] := by
  constructor
  · intro rs rt out h i h1 h2 s hn
    have hone : standardizeOne rt (rs.get ⟨i, h1⟩) = some (out.get ⟨i, h2⟩) :=
      mapOpt_get _ rs out h i h1 h2
    rw [claimEnvType_eq]
    exact standardizeOne_envtype rt _ _ hone s hn
  · decide

/-- Witness for C5 at the concrete resource named "PROD-east". -/
theorem C5_environment_type_classification_witness :
    standardize_labels [resPROD] (.jstr "kafka") = some [outPROD] ∧
    alistGet outPROD "environment_type" = some (.jstr (claimEnvType "PROD-east")) :=
  ⟨by decide,
    C5_environment_type_classification.1 [resPROD] (.jstr "kafka") [outPROD]
      (by decide) 0 (by decide) (by decide) "PROD-east" (by decide)⟩

/-- Claim C9: `standardize_labels` sets `cloud_provider` exactly when the
`cloud` field is present and non-null, uppercasing it and mapping AWS, GCP,
AZURE to their lowercase forms with unrecognized clouds falling back to the
lower-cased raw value; with no usable `cloud` the `cloud_provider` field is
left exactly as it was (in particular absent when it was absent). -/
theorem C9_cloud_provider_normalization :
    (∀ (rs : List PyDict) (rt : JVal) (out : List PyDict),
      standardize_labels rs rt = some out →
      ∀ i (h1 : i < rs.length) (h2 : i < out.length),
        (∀ c : String, alistGet (rs.get ⟨i, h1⟩) "cloud" = some (.jstr c) →
          alistGet (out.get ⟨i, h2⟩) "cloud_provider" = some (.jstr (claimCloudOf c))) ∧
        ((alistGet (rs.get ⟨i, h1⟩) "cloud" = none ∨
            alistGet (rs.get ⟨i, h1⟩) "cloud" = some .jnull) →
          alistGet (out.get ⟨i, h2⟩) "cloud_provider" =
            alistGet (rs.get ⟨i, h1⟩) "cloud_provider")) ∧
    (standardize_labels [resAWS, resOCI, resNoCloud] (.jstr "ksql")).map
        (fun l => l.map fun r => alistGet r "cloud_provider") =
      some [some (.jstr "aws"), some (.jstr "oci"), none] := by
  constructor
  · intro rs rt out h i h1 h2
    have hone : standardizeOne rt (rs.get ⟨i, h1⟩) = some (out.get ⟨i, h2⟩) :=
      mapOpt_get _ rs out h i h1 h2
    constructor
    · intro c hc
      rw [claimCloudOf_eq]
      exact standardizeOne_cloud rt _ _ hone c hc
    · intro hc
      exact standardizeOne_nocloud rt _ _ hone hc
  · decide

/-- Witness for C9 at the concrete resource with cloud "AWS". -/
theorem C9_cloud_provider_normalization_witness :
    standardize_labels [resAWS] (.jstr "ksql") = some [outAWS] ∧
    alistGet outAWS "cloud_provider" = some (.jstr (claimCloudOf "AWS")) :=
  ⟨by decide,
    ((C9_cloud_provider_normalization.1 [resAWS] (.jstr "ksql") [outAWS]
      (by decide) 0 (by decide) (by decide)).1 "AWS" (by decide))⟩

/-- Claim C10: `standardize_labels` returns a list of the same length in the
same order, and each output resource agrees with the corresponding input
resource on every field other than `component_type`, `service_tier`,
`cloud_provider` and `environment_type`. -/
theorem C10_standardize_frame :
    ∀ (rs : List PyDict) (rt : JVal) (out : List PyDict),
      standardize_labels rs rt = some out →
      out.length = rs.length ∧
      ∀ i (h1 : i < rs.length) (h2 : i < out.length) (k : String),
        k ≠ "component_type" → k ≠ "service_tier" → k ≠ "cloud_provider" →
        k ≠ "environment_type" →
        alistGet (out.get ⟨i, h2⟩) k = alistGet (rs.get ⟨i, h1⟩) k := by
  intro rs rt out h
  refine ⟨mapOpt_length _ rs out h, ?_⟩
  intro i h1 h2 k hk1 hk2 hk3 hk4
  have hone : standardizeOne rt (rs.get ⟨i, h1⟩) = some (out.get ⟨i, h2⟩) :=
    mapOpt_get _ rs out h i h1 h2
  exact standardizeOne_frame rt _ _ hone k hk1 hk2 hk3 hk4

/-- Witness for C10 at a concrete kafka resource: the pre-existing fields
id, name, environment, environment_name, cloud and region are unchanged. -/
theorem C10_standardize_frame_witness :
    standardize_labels [resAWS] (.jstr "ksql") = some [outAWS] ∧
    [outAWS].length = [resAWS].length ∧
    alistGet outAWS "cloud" = alistGet resAWS "cloud" ∧
    alistGet outAWS "name" = alistGet resAWS "name" :=
  have h : standardize_labels [resAWS] (.jstr "ksql") = some [outAWS] := by decide
  have hall := C10_standardize_frame [resAWS] (.jstr "ksql") [outAWS] h
  ⟨h, hall.1,
    hall.2 0 (by decide) (by decide) "cloud" (by decide) (by decide) (by decide) (by decide),
    hall.2 0 (by decide) (by decide) "name" (by decide) (by decide) (by decide) (by decide)⟩

/-- Bridge for claim C6: on well-formed label descriptors the sources
first-match loop computes exactly the claims selection rule. -/
theorem findIdLabelLoop_map (ls : List (String × Bool)) :
    findIdLabelLoop (ls.map labelDictOf) = some ((claimIdLabel ls).map JVal.jstr) := by
  induction ls with
  | nil => rfl
  | cons p ps ih =>
    by_cases hcond : (pyContains (pyLower p.1) "id" && p.2) = true
    · simp [findIdLabelLoop, labelDictOf, claimIdLabel, List.find?, alistGetD, alistGet,
        pyTruthy, hcond]
    · simp only [List.map_cons, findIdLabelLoop, labelDictOf, alistGetD, alistGet]
      simp only [claimIdLabel, List.find?]
      simp [pyTruthy, hcond, ih, claimIdLabel]

def labC6a : JVal := .jobj [("key", .jstr "cluster_id"), ("exportable", .jbool true)]

def labC6b : JVal := .jobj [("key", .jstr "Id"), ("exportable", .jbool false)]

def labC6c : JVal := .jobj [("key", .jstr "id"), ("exportable", .jbool false)]

/-- A telemetry descriptor response with two resource types: one with the
claims example labels, one with no exportable id label. -/
def httpC6 : Http := fun u =>
  if u = TELEMETRY_URL ++ "/v2/metrics/cloud/descriptors/resources" then
    { status := 200, body := .jobj [("data", .jarr
        [.jobj [("type", .jstr "kafka"), ("description", .jstr "Kafka"),
            ("labels", .jarr [labC6a, labC6b])],
         .jobj [("type", .jstr "ksql"), ("labels", .jarr [labC6c])]])] }
  else { status := 500, body := .jnull }

def metaC6kafka : PyDict :=
  [("description", .jstr "Kafka"), ("labels", .jarr [labC6a, labC6b]),
   ("id_label", .jstr "cluster_id")]

def metaC6ksql : PyDict :=
  [("description", .jstr ""), ("labels", .jarr [labC6c])]

/-- Claim C6: resource-type discovery selects as `id_label` the first label
whose key contains "id" case-insensitively and is exportable; with no such
label the type gets no `id_label`; for the labels cluster_id/exportable and
Id/non-exportable the selected id_label is "cluster_id". -/
theorem C6_id_label_selection :
    (∀ ls : List (String × Bool),
      findIdLabelLoop (ls.map labelDictOf) = some ((claimIdLabel ls).map JVal.jstr)) ∧
    claimIdLabel [("cluster_id", true), ("Id", false)] = some "cluster_id" ∧
    get_resource_types httpC6 =
      some (Except.ok [(.jstr "kafka", metaC6kafka), (.jstr "ksql", metaC6ksql)]) ∧
    alistGet metaC6kafka "id_label" = some (.jstr "cluster_id") ∧
    alistGet metaC6ksql "id_label" = none :=
  ⟨findIdLabelLoop_map, by decide, by decide, by decide, by decide⟩

/-- Claim C8: for every resource-type string outside the five known kinds,
`fetch_resource_ids` returns the empty list (and, being total here, raises
nothing) for every HTTP oracle and environment mapping. -/
theorem C8_unknown_type_empty (s : String)
    (hs : s ∉ ["kafka", "schema_registry", "ksql", "connector", "flink"])
    (http : Http) (envs : List (JVal × JVal)) :
    fetch_resource_ids http envs (.jstr s) = some [] := by
  simp only [List.mem_cons, List.not_mem_nil, or_false, not_or] at hs
  obtain ⟨n1, n2, n3, n4, n5⟩ := hs
  unfold fetch_resource_ids
  rw [if_neg fun h => n1 (by injection h), if_neg fun h => n2 (by injection h),
    if_neg fun h => n3 (by injection h), if_neg fun h => n4 (by injection h),
    if_neg fun h => n5 (by injection h)]

/-- Witness for C8 at the unknown type "topic". -/
theorem C8_unknown_type_empty_witness :
    fetch_resource_ids (fun _ => { status := 500, body := JVal.jnull }) []
      (.jstr "topic") = some [] :=
  C8_unknown_type_empty "topic" (by decide) _ _

/-- A world whose environment listing succeeds (one page, no data) but whose
resource-type discovery endpoint answers 500. -/
def httpC3 : Http := fun u =>
  if u = BASE_URL ++ "/org/v2/environments" then
    { status := 200, body := .jobj [("data", .jarr []), ("metadata", .jobj [])] }
  else { status := 500, body := .jnull }

def worldC3 : World :=
  { apiKey := some "k", apiSecret := some "s", http := httpC3, cwd := "/app", dir := [] }

/-- A world in which every phase succeeds: empty environment list, one
resource type with no labels. -/
def httpC3ok : Http := fun u =>
  if u = BASE_URL ++ "/org/v2/environments" then
    { status := 200, body := .jobj [("data", .jarr []), ("metadata", .jobj [])] }
  else if u = TELEMETRY_URL ++ "/v2/metrics/cloud/descriptors/resources" then
    { status := 200, body := .jobj [("data", .jarr
        [.jobj [("type", .jstr "kafka"), ("labels", .jarr [])]])] }
  else { status := 500, body := .jnull }

def worldC3ok : World :=
  { apiKey := some "k", apiSecret := some "s", http := httpC3ok, cwd := "/app", dir := [] }

/-- Counterexample to claim C3 as stated: with credentials present and the
environment listing succeeding, a failed resource-type discovery call (an
HTTP call other than environment listing) still exits with code 1. -/
theorem C3_exit_code_counterexample :
    credsMissing worldC3 = false ∧
    fetch_environments worldC3.http 1 = some (Except.ok []) ∧
    runMain 1 worldC3 = some 1 :=
  ⟨by decide, by decide, by decide⟩

/-- Claim C3 (amended): a run that terminates with an explicit exit code
exits 1 exactly when credentials are missing, the environment listing hits
a non-200 page, or resource-type discovery answers non-200; every run that
completes past those phases exits 0 (uncaught exceptions from malformed
payloads abort without reaching an explicit exit and are the `none` case). -/
theorem C3_exit_code_amended (fuel : Nat) (w : World) (c : Nat)
    (h : runMain fuel w = some c) :
    (c = 0 ∨ c = 1) ∧
    (c = 1 ↔ (credsMissing w = true ∨
      fetch_environments w.http fuel = some (Except.error ()) ∨
      get_resource_types w.http = some (Except.error ()))) := by
  unfold runMain at h
  by_cases hcr : credsMissing w = true
  · rw [if_pos hcr] at h
    injection h with h2
    subst h2
    exact ⟨Or.inr rfl, by simp [hcr]⟩
  · rw [if_neg hcr] at h
    cases hfe : fetch_environments w.http fuel with
    | none => rw [hfe] at h; cases h
    | some ex =>
      rw [hfe] at h
      cases ex with
      | error e =>
        cases e
        change some 1 = some c at h
        injection h with h2
        subst h2
        exact ⟨Or.inr rfl, by simp [hfe]⟩
      | ok envs =>
        change (match get_resource_types w.http with
          | none => none
          | some (Except.error _) => some 1
          | some (Except.ok rts) => (mainPipeline w envs rts).map fun _ => 0) = some c at h
        cases hrt : get_resource_types w.http with
        | none => rw [hrt] at h; cases h
        | some ex2 =>
          rw [hrt] at h
          cases ex2 with
          | error e2 =>
            cases e2
            change some 1 = some c at h
            injection h with h2
            subst h2
            exact ⟨Or.inr rfl, by simp [hrt]⟩
          | ok rts =>
            change (mainPipeline w envs rts).map (fun _ => 0) = some c at h
            cases hmp : mainPipeline w envs rts with
            | none => rw [hmp] at h; cases h
            | some g =>
              rw [hmp] at h
              change some 0 = some c at h
              injection h with h2
              subst h2
              refine ⟨Or.inl rfl, ?_⟩
              simp [hcr, hfe, hrt]

/-- Witness for the amended C3 at a fully succeeding world (exit code 0). -/
theorem C3_exit_code_amended_witness :
    ((0 : Nat) = 0 ∨ (0 : Nat) = 1) ∧
    ((0 : Nat) = 1 ↔ (credsMissing worldC3ok = true ∨
      fetch_environments worldC3ok.http 1 = some (Except.error ()) ∨
      get_resource_types worldC3ok.http = some (Except.error ()))) :=
  C3_exit_code_amended 1 worldC3ok 0 (by decide)

/-- A resource whose (kafka, prod, aws) group is reproduced on every run. -/
def resKafkaSD : PyDict :=
  [("id", .jstr "lkc-1"), ("name", .jstr "c1"), ("environment", .jstr "env-1"),
   ("environment_name", .jstr "prod"), ("cloud_provider", .jstr "aws"),
   ("environment_type", .jstr "production")]

/-- The document the reconciler writes for that group. -/
def docKafkaSD : SDoc :=
  { targets := ["api.telemetry.confluent.cloud"],
    job := "confluent_kafka", environment := "prod",
    cloud_provider := .jstr "aws", environment_type := .jstr "production",
    paramsKey := "resource.kafka.id", paramsIds := [.jstr "lkc-1"] }

/-- Claim C1 shows a code bug: with the output directory already holding the
file of a group that this run reproduces (it is rewritten by this very
run), the deletion pass still removes it, because the previous set holds
relative paths and the current set absolute ones; the directory ends empty
although the run generated the file. -/
theorem C1_reconciler_deletes_reproduced_file :
    genWritesForType (.jstr "kafka") [resKafkaSD] =
      some [("kafka_prod_aws.yml", docKafkaSD)] ∧
    generate_sd_files "/app" [(.jstr "kafka", [resKafkaSD])]
        [("kafka_prod_aws.yml", docKafkaSD)] =
      some { dir := [], listing := [] } :=
  ⟨by decide, by decide⟩

/-- Claim C2 shows the same code bug: a first run from an empty directory
creates the file, and a second run with identical input deletes it, so the
file set after the second run is empty rather than identical and the
second run deletes one file rather than zero. -/
theorem C2_reconciler_not_idempotent :
    generate_sd_files "/app" [(.jstr "kafka", [resKafkaSD])] [] =
      some { dir := [("kafka_prod_aws.yml", docKafkaSD)],
             listing := ["kafka_prod_aws.yml"] } ∧
    generate_sd_files "/app" [(.jstr "kafka", [resKafkaSD])]
        [("kafka_prod_aws.yml", docKafkaSD)] =
      some { dir := [], listing := [] } :=
  ⟨by decide, by decide⟩

/-! ## Provenance of the ids in generated files (for claim C7) -/

theorem cloudFileOf_ids (rt : JVal) (envStr safeEnv : String) (q : JVal × List PyDict)
    (wr : String × SDoc) (h : cloudFileOf rt envStr safeEnv q = some wr) :
    ∀ v ∈ wr.2.paramsIds, ∃ r ∈ q.2, alistGet r "id" = some v := by
  unfold cloudFileOf at h
  cases hq2 : q.2 with
  | nil => rw [hq2] at h; cases h
  | cons r0 rest =>
    rw [hq2] at h
    cases hmo : mapOpt (fun r => alistGet r "id") (r0 :: rest) with
    | none => rw [hmo] at h; cases h
    | some ids =>
      rw [hmo] at h
      injection h with h2
      subst h2
      intro v hv
      rcases mapOpt_mem _ _ _ hmo v hv with ⟨r, hr, hid⟩
      exact ⟨r, hr, hid⟩

theorem envFilesOf_ids (rt : JVal) (p : JVal × List PyDict) (sub : List (String × SDoc))
    (h : envFilesOf rt p = some sub) :
    ∀ wr ∈ sub, ∀ v ∈ wr.2.paramsIds, ∃ r ∈ p.2, alistGet r "id" = some v := by
  unfold envFilesOf at h
  by_cases he : p.2.isEmpty
  · rw [if_pos he] at h
    injection h with h2
    subst h2
    intro wr hwr
    simp at hwr
  · rw [if_neg he] at h
    split at h
    · rename_i envStr heq
      split at h
      · intro wr hwr v hv
        rcases mapOpt_mem _ _ _ h wr hwr with ⟨q, hq, hcf⟩
        rcases cloudFileOf_ids rt envStr _ q wr hcf v hv with ⟨r, hr, hid⟩
        refine ⟨r, ?_, hid⟩
        exact groupByKey_mem _ p.2 q.1 q.2 r (by rw [Prod.mk.eta]; exact hq) hr
      · cases h
    · cases h

theorem genWritesKeep_ids (rt : JVal) (keep : List PyDict) (ws : List (String × SDoc))
    (h : genWritesKeep rt keep = some ws) :
    ∀ wr ∈ ws, ∀ v ∈ wr.2.paramsIds, ∃ r ∈ keep, alistGet r "id" = some v := by
  unfold genWritesKeep at h
  by_cases hh : keep.all (fun r => jHashable (alistGetD r "environment_name" (.jstr "unknown")))
  · rw [if_pos hh] at h
    cases hmo : mapOpt (envFilesOf rt)
        (groupByKey (fun r => alistGetD r "environment_name" (.jstr "unknown")) keep) with
    | none => rw [hmo] at h; cases h
    | some ls =>
      rw [hmo] at h
      injection h with h2
      subst h2
      intro wr hwr v hv
      rcases List.mem_flatten.mp hwr with ⟨sub, hsub, hwrs⟩
      rcases mapOpt_mem _ _ _ hmo sub hsub with ⟨q, hq, hef⟩
      rcases envFilesOf_ids rt q sub hef wr hwrs v hv with ⟨r, hr, hid⟩
      refine ⟨r, ?_, hid⟩
      exact groupByKey_mem _ keep q.1 q.2 r (by rw [Prod.mk.eta]; exact hq) hr
  · rw [if_neg hh] at h; cases h

theorem genWritesForType_ids (rt : JVal) (resources : List PyDict)
    (ws : List (String × SDoc)) (h : genWritesForType rt resources = some ws) :
    ∀ wr ∈ ws, ∀ v ∈ wr.2.paramsIds, ∃ r ∈ resources,
      pyTruthy (alistGetD r "no_telemetry_id" .jnull) = false ∧ alistGet r "id" = some v := by
  unfold genWritesForType at h
  by_cases he : resources.isEmpty
  · rw [if_pos he] at h
    injection h with h2
    subst h2
    intro wr hwr
    simp at hwr
  · rw [if_neg he] at h
    intro wr hwr v hv
    rcases genWritesKeep_ids rt _ ws h wr hwr v hv with ⟨r, hr, hid⟩
    rcases List.mem_filter.mp hr with ⟨hrm, hflag⟩
    refine ⟨r, hrm, ?_, hid⟩
    simpa using hflag

theorem genWritesAll_ids (groups : List (JVal × List PyDict)) (ws : List (String × SDoc))
    (h : genWritesAll groups = some ws) :
    ∀ wr ∈ ws, ∀ v ∈ wr.2.paramsIds, ∃ rt2 res2, (rt2, res2) ∈ groups ∧ ∃ r ∈ res2,
      pyTruthy (alistGetD r "no_telemetry_id" .jnull) = false ∧ alistGet r "id" = some v := by
  unfold genWritesAll at h
  cases hmo : mapOpt (fun p => genWritesForType p.1 p.2) groups with
  | none => rw [hmo] at h; cases h
  | some ls =>
    rw [hmo] at h
    injection h with h2
    subst h2
    intro wr hwr v hv
    rcases List.mem_flatten.mp hwr with ⟨sub, hsub, hwrs⟩
    rcases mapOpt_mem _ _ _ hmo sub hsub with ⟨p, hp, hgf⟩
    rcases genWritesForType_ids p.1 p.2 sub hgf wr hwrs v hv with ⟨r, hr, hflag, hid⟩
    exact ⟨p.1, p.2, by rw [Prod.mk.eta]; exact hp, r, hr, hflag, hid⟩

/-- Claim C7: a resource with a truthy `no_telemetry_id` contributes its id
to no generated files params list (given that no unflagged resource of any
group shares that id, as ids are unique), yet the per-type summary count
still counts the whole resource list it belongs to, flagged resources
included. -/
theorem C7_no_telemetry_id_excluded_but_counted
    (groups : List (JVal × List PyDict)) (rt : JVal) (resources : List PyDict)
    (r : PyDict) (idv : JVal) (ws : List (String × SDoc))
    (hg : (rt, resources) ∈ groups) (_hr : r ∈ resources)
    (_hflag : pyTruthy (alistGetD r "no_telemetry_id" .jnull) = true)
    (huniq : ∀ rt2 res2, (rt2, res2) ∈ groups → ∀ r2 ∈ res2,
      pyTruthy (alistGetD r2 "no_telemetry_id" .jnull) = false →
      alistGet r2 "id" ≠ some idv)
    (hws : genWritesAll groups = some ws) :
    (∀ wr ∈ ws, idv ∉ wr.2.paramsIds) ∧ (rt, resources.length) ∈ summaryCounts groups := by
  constructor
  · intro wr hwr hv
    rcases genWritesAll_ids groups ws hws wr hwr idv hv with
      ⟨rt2, res2, hg2, r2, hr2, hfl2, hid2⟩
    exact huniq rt2 res2 hg2 r2 hr2 hfl2 hid2
  · exact List.mem_map.mpr ⟨(rt, resources), hg, rfl⟩

/-- A connector-style resource flagged as lacking a telemetry id. -/
def resFlagged : PyDict :=
  [("id", .jstr "lkc-bad"), ("environment_name", .jstr "prod"),
   ("cloud_provider", .jstr "aws"), ("environment_type", .jstr "production"),
   ("no_telemetry_id", .jbool true)]

def groupsC7 : List (JVal × List PyDict) := [(.jstr "kafka", [resFlagged, resKafkaSD])]

/-- Witness for C7: in a group holding one flagged and one unflagged
resource, the single generated file lists only the unflagged id while the
summary counts both resources. -/
theorem C7_no_telemetry_id_excluded_but_counted_witness :
    (∀ wr ∈ [("kafka_prod_aws.yml", docKafkaSD)],
      JVal.jstr "lkc-bad" ∉ (Prod.snd wr).paramsIds) ∧
    (JVal.jstr "kafka", 2) ∈ summaryCounts groupsC7 := by
  have huniq : ∀ rt2 res2, (rt2, res2) ∈ groupsC7 → ∀ r2 ∈ res2,
      pyTruthy (alistGetD r2 "no_telemetry_id" .jnull) = false →
      alistGet r2 "id" ≠ some (.jstr "lkc-bad") := by
    intro rt2 res2 hg2 r2 hr2 hfl2 hid2
    have hpair : rt2 = JVal.jstr "kafka" ∧ res2 = [resFlagged, resKafkaSD] := by
      simpa [groupsC7] using hg2
    rw [hpair.2] at hr2
    rcases List.mem_cons.mp hr2 with h2 | h2
    · subst h2
      exact absurd hfl2 (by decide)
    · rcases List.mem_cons.mp h2 with h3 | h3
      · subst h3
        exact absurd hid2 (by decide)
      · simp at h3
  have hcnt : (2 : Nat) = ([resFlagged, resKafkaSD] : List PyDict).length := by decide
  have := C7_no_telemetry_id_excluded_but_counted groupsC7 (.jstr "kafka")
    [resFlagged, resKafkaSD] resFlagged (.jstr "lkc-bad")
    [("kafka_prod_aws.yml", docKafkaSD)]
    (by decide) (by decide) (by decide) huniq (by decide)
  exact ⟨this.1, by rw [hcnt]; exact this.2⟩

/-! ## Pagination (claim C4) -/

/-- A response chain as the claim describes it: starting at `u`, every page
answers 200 with a `data` array, pages are linked by a (truthy, string)
`metadata.next` cursor, and the last page carries no cursor. -/
inductive EnvChain (http : Http) : String → List (String × List JVal) → Prop where
  | last : ∀ u d fs ms,
      (http u).status = 200 →
      (http u).body = .jobj fs →
      alistGetD fs "data" (.jarr []) = .jarr d →
      alistGetD fs "metadata" (.jobj []) = .jobj ms →
      alistGetD ms "next" .jnull = .jnull →
      EnvChain http u [(u, d)]
  | cons : ∀ u d fs ms u2 rest,
      (http u).status = 200 →
      (http u).body = .jobj fs →
      alistGetD fs "data" (.jarr []) = .jarr d →
      alistGetD fs "metadata" (.jobj []) = .jobj ms →
      alistGetD ms "next" .jnull = .jstr u2 →
      u2 ≠ "" →
      EnvChain http u2 rest →
      EnvChain http u ((u, d) :: rest)

theorem fetchEnvPages_last (http : Http) (u : String) (d : List JVal)
    (fs ms : List (String × JVal)) (f : Nat)
    (h200 : (http u).status = 200) (hbody : (http u).body = .jobj fs)
    (hdata : alistGetD fs "data" (.jarr []) = .jarr d)
    (hmeta : alistGetD fs "metadata" (.jobj []) = .jobj ms)
    (hnext : alistGetD ms "next" .jnull = .jnull) :
    fetchEnvPages http (f + 1) u = some (Except.ok d) := by
  unfold fetchEnvPages
  rw [if_neg (by rw [h200]; simp)]
  simp only [hbody]
  simp only [hdata, pyIterate]
  simp only [hmeta]
  simp only [hnext, pyTruthy]
  simp

theorem fetchEnvPages_cons (http : Http) (u u2 : String) (d rest : List JVal)
    (fs ms : List (String × JVal)) (f : Nat)
    (h200 : (http u).status = 200) (hbody : (http u).body = .jobj fs)
    (hdata : alistGetD fs "data" (.jarr []) = .jarr d)
    (hmeta : alistGetD fs "metadata" (.jobj []) = .jobj ms)
    (hnext : alistGetD ms "next" .jnull = .jstr u2) (htr : u2 ≠ "")
    (hrec : fetchEnvPages http f u2 = some (Except.ok rest)) :
    fetchEnvPages http (f + 1) u = some (Except.ok (d ++ rest)) := by
  unfold fetchEnvPages
  rw [if_neg (by rw [h200]; simp)]
  simp only [hbody]
  simp only [hdata, pyIterate]
  simp only [hmeta]
  simp only [hnext, pyTruthy]
  simp [htr, hrec]

theorem count_flatMap_snd (v : JVal) (chain : List (String × List JVal)) :
    List.count v (chain.flatMap Prod.snd) = (chain.map fun p => List.count v p.2).sum := by
  induction chain with
  | nil => rfl
  | cons p ps ih => simp [List.flatMap_cons, List.count_append, ih]

/-- Claim C4: along any `metadata.next`-linked response chain (with enough
fuel for its length), the pagination loop of `fetch_environments` succeeds
and returns exactly the concatenation of the pages `data` arrays in
arrival order; hence every pages entries appear exactly once each, with
cross-page arrival order preserved, no deduplication and no sorting (the
multiplicity of every value in the aggregate is the sum of its per-page
multiplicities). -/
theorem C4_pagination_concatenates (http : Http) (u : String)
    (chain : List (String × List JVal)) (hchain : EnvChain http u chain) :
    ∀ fuel, chain.length ≤ fuel →
      fetchEnvPages http fuel u = some (Except.ok (chain.flatMap Prod.snd)) ∧
      ∀ v : JVal, List.count v (chain.flatMap Prod.snd) =
        (chain.map fun p => List.count v p.2).sum := by
  induction hchain with
  | last u d fs ms h200 hbody hdata hmeta hnext =>
    intro fuel hf
    cases fuel with
    | zero => simp at hf
    | succ f =>
      refine ⟨?_, fun v => count_flatMap_snd v _⟩
      have := fetchEnvPages_last http u d fs ms f h200 hbody hdata hmeta hnext
      simpa using this
  | cons u d fs ms u2 rest h200 hbody hdata hmeta hnext htr hrest ih =>
    intro fuel hf
    cases fuel with
    | zero => simp at hf
    | succ f =>
      refine ⟨?_, fun v => count_flatMap_snd v _⟩
      have hlen : rest.length ≤ f := by
        simpa using Nat.le_of_succ_le_succ (by simpa using hf)
      have hrec := (ih f hlen).1
      have := fetchEnvPages_cons http u u2 d (rest.flatMap Prod.snd) fs ms f
        h200 hbody hdata hmeta hnext htr hrec
      simpa using this

/-- Three pages linked via `metadata.next`, with one entry duplicated across
pages to exhibit the absence of deduplication. -/
def httpC4 : Http := fun u =>
  if u = BASE_URL ++ "/org/v2/environments" then
    { status := 200, body := .jobj [("data", .jarr [.jstr "e1", .jstr "e2"]),
        ("metadata", .jobj [("next", .jstr "page2")])] }
  else if u = "page2" then
    { status := 200, body := .jobj [("data", .jarr [.jstr "e3"]),
        ("metadata", .jobj [("next", .jstr "page3")])] }
  else if u = "page3" then
    { status := 200, body := .jobj [("data", .jarr [.jstr "e4", .jstr "e2"]),
        ("metadata", .jobj [])] }
  else { status := 500, body := .jnull }

def chainC4 : List (String × List JVal) :=
  [(BASE_URL ++ "/org/v2/environments", [.jstr "e1", .jstr "e2"]),
   ("page2", [.jstr "e3"]),
   ("page3", [.jstr "e4", .jstr "e2"])]

/-- Witness for C4: three concrete pages aggregate to the ordered
concatenation, with the duplicated entry kept twice. -/
theorem C4_pagination_concatenates_witness :
    fetchEnvPages httpC4 3 (BASE_URL ++ "/org/v2/environments") =
      some (Except.ok [JVal.jstr "e1", .jstr "e2", .jstr "e3", .jstr "e4", .jstr "e2"]) ∧
    List.count (JVal.jstr "e2")
      [JVal.jstr "e1", .jstr "e2", .jstr "e3", .jstr "e4", .jstr "e2"] = 2 := by
  have hch : EnvChain httpC4 (BASE_URL ++ "/org/v2/environments") chainC4 :=
    EnvChain.cons _ _
      [("data", .jarr [.jstr "e1", .jstr "e2"]),
       ("metadata", .jobj [("next", .jstr "page2")])]
      [("next", .jstr "page2")] "page2" _
      (by decide) (by decide) (by decide) (by decide) (by decide) (by decide)
      (EnvChain.cons _ _
        [("data", .jarr [.jstr "e3"]), ("metadata", .jobj [("next", .jstr "page3")])]
        [("next", .jstr "page3")] "page3" _
        (by decide) (by decide) (by decide) (by decide) (by decide) (by decide)
        (EnvChain.last _ _
          [("data", .jarr [.jstr "e4", .jstr "e2"]), ("metadata", .jobj [])] []
          (by decide) (by decide) (by decide) (by decide) (by decide)))
  have h := (C4_pagination_concatenates httpC4 _ chainC4 hch 3 (by decide)).1
  exact ⟨h, by decide⟩
